import Mathlib

/-!
Shallow embedding of the uniform-detection compliance pipeline
(`utils.py` class `UniformDetector` and the `/detect` route of `app.py`).

Machine floats appearing in the source are modelled as rationals (`ℚ`);
every float value this development reasons about is an exact multiple of
12.5 in [0, 100], hence exactly representable in binary floating point,
so the rational model agrees with the float semantics on all reachable
values.  Effectful primitives (filesystem, network, detector service) are
modelled by explicit oracle parameters and event traces; Python
exceptions are modelled with `Except`.
-/

namespace UniformDetector

/-- One bounding box as built in `detect_uniform_elements` (`utils.py`
lines 167-173): centre coordinates, size and confidence. -/
structure BBox where
  x : ℚ
  y : ℚ
  width : ℚ
  height : ℚ
  confidence : ℚ
deriving DecidableEq, Repr

/-- One entry of the raw detector response
(`prediction.json()['predictions']`): a class label with confidence and
box geometry (`utils.py` lines 162-173).  The label field is `class` in
the Python dict, a reserved word here. -/
structure RawPrediction where
  cls : String
  confidence : ℚ
  x : ℚ
  y : ℚ
  width : ℚ
  height : ℚ
deriving DecidableEq, Repr

/-- One normalized detection as appended to `detected_elements`
(`utils.py` lines 175-179). -/
structure DetectedElement where
  element : String
  confidence : ℚ
  bbox : BBox
deriving DecidableEq, Repr

/-- `self.uniform_elements`, the fixed 8-item required checklist
(`utils.py` lines 57-60). -/
def uniform_elements : List String :=
  ["botas", "gafas", "guantes", "casco", "camisa", "polo", "pantalon", "carnet"]

/-- The exceptions `detect_uniform_elements` can raise
(`utils.py` lines 140, 143, 151). -/
inductive DetectError where
  | fileNotFound (msg : String)
  | valueError (msg : String)
deriving DecidableEq, Repr

/-- The dictionary returned by `detect_uniform_elements`.  The success
path (`utils.py` lines 184-189) carries a fourth key `prediction_data`;
the two empty-result paths (lines 147 and 193) return a dict without
that key, modelled as `none`. -/
structure DetectResult where
  detected_elements : List DetectedElement
  carnet_box : Option BBox
  total_detections : Nat
  prediction_data : Option (List RawPrediction)
deriving DecidableEq, Repr

/-- Python `str.lower()`: lowercase character by character (expressed on
the underlying character list so that it evaluates in the kernel). -/
def py_lower (s : String) : String := ⟨s.data.map Char.toLower⟩

/-- Python `str.endswith(suffix)`: the suffix test on the underlying
character list. -/
def py_endswith (s suffix : String) : Bool :=
  suffix.data.isSuffixOf s.data

/-- The extension allow-check of `detect_uniform_elements`
(`utils.py` line 142): `image_path.lower().endswith(('.jpg', '.jpeg',
'.png', '.bmp'))`, a tuple argument meaning "ends with any of". -/
def allowed_image_ext (image_path : String) : Bool :=
  py_endswith (py_lower image_path) ".jpg" ||
  py_endswith (py_lower image_path) ".jpeg" ||
  py_endswith (py_lower image_path) ".png" ||
  py_endswith (py_lower image_path) ".bmp"

/-- The mapping from one raw prediction entry to the `bbox` dict built at
`utils.py` lines 167-173. -/
def prediction_bbox (p : RawPrediction) : BBox :=
  ⟨p.x, p.y, p.width, p.height, p.confidence⟩

/-- `UniformDetector.detect_uniform_elements` (`utils.py` lines 137-193).
Oracles: `pathExists` models `os.path.exists(image_path)`; `modelLoaded`
models `self.model is not None`; `imreadOk` models `cv2.imread` returning
a non-`None` image; `predictOutcome` models the `model.predict` call
either raising (`.error`) or returning the parsed prediction list
(`.ok`).  Guard order follows the source: existence, extension, model
handle, image decode, prediction. -/
def detect_uniform_elements (image_path : String) (pathExists : Bool)
    (modelLoaded : Bool) (imreadOk : Bool)
    (predictOutcome : Except Unit (List RawPrediction)) :
    Except DetectError DetectResult :=
  if !pathExists then
    .error (.fileNotFound ("Imagen no encontrada: " ++ image_path))
  else if !allowed_image_ext image_path then
    .error (.valueError "Formato no válido. Use JPG, JPEG, PNG o BMP.")
  else if !modelLoaded then
    .ok ⟨[], none, 0, none⟩
  else if !imreadOk then
    .error (.valueError "No se pudo leer la imagen.")
  else
    match predictOutcome with
    | .error _ => .ok ⟨[], none, 0, none⟩
    | .ok preds =>
      let detected_elements := preds.map (fun p =>
        DetectedElement.mk (py_lower p.cls) p.confidence (prediction_bbox p))
      let carnet_box :=
        (preds.find? (fun p => py_lower p.cls == "carnet")).map prediction_bbox
      .ok ⟨detected_elements, carnet_box, detected_elements.length, some preds⟩

/-- `UniformDetector.calculate_compliance` (`utils.py` lines 195-209):
collects the detected names, walks the checklist in its fixed order
keeping the items whose name occurs among the detected names, takes the
complement as the missing list, and scores
`(len(found) / len(checklist)) * 100`. -/
def calculate_compliance (detected_elements : List DetectedElement) :
    ℚ × List String × List String :=
  let detected_names := detected_elements.map (fun e => e.element)
  let elementos_encontrados :=
    uniform_elements.filter (fun element => decide (element ∈ detected_names))
  let elementos_faltantes :=
    uniform_elements.filter (fun elem => decide (elem ∉ elementos_encontrados))
  let porcentaje :=
    ((elementos_encontrados.length : ℚ) / (uniform_elements.length : ℚ)) * 100
  (porcentaje, elementos_encontrados, elementos_faltantes)

/-- Rounding a rational to one decimal place, the contract `round(x, 1)`
from the specification text (round half away from zero differences do not
matter here: every value we apply it to is an exact multiple of 1/10). -/
def round1 (q : ℚ) : ℚ := ((round (q * 10) : ℤ) : ℚ) / 10

/-- A wall-clock instant as used through `datetime.now()`; only the six
fields consumed by the two `strftime` format strings are modelled. -/
structure Timestamp where
  year : Nat
  month : Nat
  day : Nat
  hour : Nat
  minute : Nat
  second : Nat
deriving DecidableEq, Repr

/-- Zero-padding to two digits, as `%m`, `%d`, `%H`, `%M`, `%S` do. -/
def pad2 (n : Nat) : String :=
  if n < 10 then "0" ++ toString n else toString n

/-- Zero-padding to four digits, as `%Y` does. -/
def pad4 (n : Nat) : String :=
  if n < 10 then "000" ++ toString n
  else if n < 100 then "00" ++ toString n
  else if n < 1000 then "0" ++ toString n
  else toString n

/-- `timestamp.strftime('%Y-%m-%d %H:%M:%S')` (`utils.py` lines 270 and
305, `app.py` line 123). -/
def Timestamp.strftime_datetime (t : Timestamp) : String :=
  pad4 t.year ++ "-" ++ pad2 t.month ++ "-" ++ pad2 t.day ++ " " ++
  pad2 t.hour ++ ":" ++ pad2 t.minute ++ ":" ++ pad2 t.second

/-- `datetime.now().strftime('%Y%m%d_%H%M%S')` (`utils.py` line 319),
used for the backup file name. -/
def Timestamp.strftime_compact (t : Timestamp) : String :=
  pad4 t.year ++ pad2 t.month ++ pad2 t.day ++ "_" ++
  pad2 t.hour ++ pad2 t.minute ++ pad2 t.second

/-- Rendering of a nonnegative number of tenths `t` as the decimal string
with one digit after the point. -/
def format_tenths (t : ℤ) : String :=
  toString (t / 10) ++ "." ++ toString (t % 10)

/-- The Python format `f"{q:.1f}"` restricted to the values it is applied
to in this program: nonnegative exact multiples of 1/10 (every compliance
percentage is a multiple of 12.5, exactly representable as a float, so
no binary rounding intervenes and the float renders as its exact decimal
value). -/
def format_1f (q : ℚ) : String :=
  format_tenths (round (q * 10))

/-- The six values appended to Google Sheets, in order
(`utils.py` lines 269-276, `save_to_google_sheets`). -/
def sheets_values (nombre : String)
    (elementos_encontrados elementos_faltantes : List String)
    (porcentaje : ℚ) (timestamp : Timestamp) (aliado : String) :
    List String :=
  [Timestamp.strftime_datetime timestamp,
   aliado,
   nombre,
   if elementos_encontrados ≠ [] then
     String.intercalate ", " elementos_encontrados
   else "Ninguno",
   if elementos_faltantes ≠ [] then
     String.intercalate ", " elementos_faltantes
   else "Completo",
   format_1f porcentaje ++ "%"]

/-- The ordered column keys of the row dictionary built in
`save_to_excel` (`utils.py` lines 304-311). -/
def excel_columns : List String :=
  ["Fecha", "Aliado", "Nombre", "Tiene del uniforme", "Le falta tener",
   "Porcentaje"]

/-- The six cell values of `nuevo_registro`, the row appended to the
local Excel file, in column order (`utils.py` lines 304-311). -/
def nuevo_registro (nombre : String)
    (elementos_encontrados elementos_faltantes : List String)
    (porcentaje : ℚ) (timestamp : Timestamp) (aliado : String) :
    List String :=
  [Timestamp.strftime_datetime timestamp,
   aliado,
   nombre,
   if elementos_encontrados ≠ [] then
     String.intercalate ", " elementos_encontrados
   else "Ninguno",
   if elementos_faltantes ≠ [] then
     String.intercalate ", " elementos_faltantes
   else "Completo",
   format_1f porcentaje ++ "%"]

/-- The A1 range targeted by the remote append,
`f"{sheet_name}!A:F"` (`utils.py` line 283). -/
def sheets_append_range (sheet_name : String) : String :=
  sheet_name ++ "!A:F"

/-- Contents of a path in the local store: either a table of rows that
`pd.read_excel` can read back, or a file it raises on. -/
inductive FileContent where
  | table (rows : List (List String))
  | corrupt
deriving DecidableEq

/-- The slice of the local filesystem `save_to_excel` touches: the
results workbook `resultados_uniformes.xlsx` and the backup file it may
create. -/
structure ExcelFS where
  mainFile : Option FileContent
  backupFile : Option (String × FileContent)
deriving DecidableEq

/-- The backup name built at `utils.py` line 319:
`f"resultados_uniformes_backup_{datetime.now().strftime('%Y%m%d_%H%M%S')}.xlsx"`. -/
def backup_filename (now : Timestamp) : String :=
  "resultados_uniformes_backup_" ++ now.strftime_compact ++ ".xlsx"

/-- The body of the `try:` block of `save_to_excel` (`utils.py` lines
303-329).  Oracles: `renameOk` models `os.rename` succeeding (its inner
`try/except: pass` keeps a rename failure local), `writeOk` models
`df_final.to_excel` succeeding, `now` is the clock read for the backup
name.  A read failure on an existing file is the `mainFile = corrupt`
case.  `.error fs` models an exception escaping to the outer handler
with the filesystem left in state `fs`. -/
def save_to_excel_attempt (registro : List String) (fs : ExcelFS)
    (renameOk : Bool) (writeOk : Bool) (now : Timestamp) :
    Except ExcelFS (Bool × ExcelFS) :=
  let step : List (List String) × ExcelFS :=
    match fs.mainFile with
    | none => ([registro], fs)
    | some (.table rows) => (rows ++ [registro], fs)
    | some .corrupt =>
      if renameOk then
        ([registro],
         { fs with
             mainFile := none,
             backupFile := some (backup_filename now, .corrupt) })
      else ([registro], fs)
  if writeOk then
    .ok (true, { step.2 with mainFile := some (.table step.1) })
  else
    .error step.2

/-- `UniformDetector.save_to_excel` (`utils.py` lines 298-333): the
`try:` body with the outer `except Exception` converting any raise into
a `False` return (lines 331-333). -/
def save_to_excel (registro : List String) (fs : ExcelFS)
    (renameOk : Bool) (writeOk : Bool) (now : Timestamp) : Bool × ExcelFS :=
  match save_to_excel_attempt registro fs renameOk writeOk now with
  | .ok r => r
  | .error fsAtRaise => (false, fsAtRaise)

/-- Which credential source the Sheets service was built from
(`utils.py` lines 218-241). -/
inductive CredSource where
  | envVar
  | localFile
deriving DecidableEq, Repr

/-- Network-visible actions of the Google Sheets client: building the
service (`build('sheets', 'v4', ...)`, line 243) and executing the
append request (lines 281-287). -/
inductive NetEvent where
  | buildService (source : CredSource)
  | appendRows (range : String) (values : List String)
deriving DecidableEq

/-- Environment and failure oracles for the Google Sheets integration:
`google_sheets_available` is the import flag `GOOGLE_SHEETS_AVAILABLE`
(`utils.py` lines 17-22); `env_credential` is
`os.environ.get('GOOGLE_SERVICE_ACCOUNT')` (line 219);
`cred_file_exists` is `os.path.exists(service_account_file)` (line 234);
`env_cred_loads` / `file_cred_loads` model the credential constructors
succeeding; `build_succeeds` models `build(...)` succeeding;
`append_succeeds` models `.execute()` not raising; and
`response_has_updates` models `result.get('updates')` being non-`None`
(line 289 raises `AttributeError` otherwise). -/
structure SheetsWorld where
  google_sheets_available : Bool
  env_credential : Option String
  cred_file_exists : Bool
  env_cred_loads : Bool
  file_cred_loads : Bool
  build_succeeds : Bool
  append_succeeds : Bool
  response_has_updates : Bool
deriving DecidableEq

/-- The `else` branch of `get_google_sheets_service` that loads the
credential file (`utils.py` lines 229-241), followed by the `build` call
(line 243); any raise is caught by the function's handler (lines
246-250) and becomes `None`. -/
def get_service_file_branch (w : SheetsWorld) :
    Option CredSource × List NetEvent :=
  if !w.cred_file_exists then (none, [])
  else if !w.file_cred_loads then (none, [])
  else if w.build_succeeds then (some .localFile, [.buildService .localFile])
  else (none, [.buildService .localFile])

/-- `UniformDetector.get_google_sheets_service` (`utils.py` lines
211-250): prefer the inline credential payload from the environment when
it is set and non-empty (Python truthiness of the string), else fall
back to the configured credential file; return `None` on any failure.
The returned value records which credential source the service was built
from; the trace records the network-visible calls. -/
def get_google_sheets_service (w : SheetsWorld) :
    Option CredSource × List NetEvent :=
  if !w.google_sheets_available then (none, [])
  else
    match w.env_credential with
    | some s =>
      if s ≠ "" then
        if !w.env_cred_loads then (none, [])
        else if w.build_succeeds then (some .envVar, [.buildService .envVar])
        else (none, [.buildService .envVar])
      else get_service_file_branch w
    | none => get_service_file_branch w

/-- `UniformDetector.save_to_google_sheets` (`utils.py` lines 252-296):
returns `False` when the Sheets client library is absent, when no
service could be built, when the append request raises, or when the
response lacks the `updates` key (the chained `.get` on `None` raises
and is caught); returns `True` only when the append succeeded and the
response was well-formed.  The trace records the network calls made. -/
def save_to_google_sheets (w : SheetsWorld) (nombre : String)
    (elementos_encontrados elementos_faltantes : List String)
    (porcentaje : ℚ) (timestamp : Timestamp) (aliado : String)
    (sheet_name : String) : Bool × List NetEvent :=
  if !w.google_sheets_available then (false, [])
  else
    match get_google_sheets_service w with
    | (none, evs) => (false, evs)
    | (some _, evs) =>
      let values := sheets_values nombre elementos_encontrados
        elementos_faltantes porcentaje timestamp aliado
      let evs2 := evs ++ [.appendRows (sheets_append_range sheet_name) values]
      if !w.append_succeeds then (false, evs2)
      else if !w.response_has_updates then (false, evs2)
      else (true, evs2)

end UniformDetector

namespace App

open UniformDetector

/-- User-visible outcome of the `/detect` route (`app.py`): an error
page (`render_template('index.html', error=...)`) or the results page
(`render_template('results.html', ...)`, lines 117-124). -/
inductive PipelineResult where
  | errorPage (msg : String)
  | resultsPage (aliado nombre : String) (porcentaje : ℚ)
      (detectados faltantes fecha : String)
deriving DecidableEq

/-- Whether a pipeline outcome is the results page. -/
def PipelineResult.isResultsPage : PipelineResult → Bool
  | .errorPage _ => false
  | .resultsPage _ _ _ _ _ _ => true

/-- Behaviour of the `save_to_google_sheets` call as observed at its
call site in `app.py` (lines 108-112): it returns `True`, returns
`False`, or raises. -/
inductive SheetsOutcome where
  | ok
  | fail
  | exn
deriving DecidableEq, Repr

/-- Observable steps taken by the route handler after detection:
the compliance computation (`app.py` line 87), the local Excel append
(line 99) with its boolean result, and the attempted remote append
(line 109) with its observed behaviour. -/
inductive Event where
  | complianceEval
  | excelWrite (ok : Bool)
  | sheetsAttempt (outcome : SheetsOutcome)
deriving DecidableEq

/-- The `/detect` route from the point where `detect_uniform_elements`
has returned `detections` (`app.py` lines 80-124): short-circuit on zero
detections; otherwise evaluate compliance, append to the local Excel
store ignoring its boolean, attempt the remote append inside
`try/except` (any exception is caught and only logged), and render the
results page.  The route's `faltantes` display default is `'Ninguno'`
(line 122).  Returns the page, the final local-store state, and the
event trace in execution order. -/
def detect_pipeline (aliado nombre_tecnico : String)
    (detections : DetectResult) (fs : ExcelFS)
    (renameOk writeOk : Bool) (sheets : SheetsOutcome) (ts : Timestamp) :
    PipelineResult × ExcelFS × List Event :=
  if detections.total_detections = 0 then
    (.errorPage "No se detectaron elementos del uniforme.", fs, [])
  else
    let c := calculate_compliance detections.detected_elements
    let registro := nuevo_registro nombre_tecnico c.2.1 c.2.2 c.1 ts aliado
    let excelResult := save_to_excel registro fs renameOk writeOk ts
    (.resultsPage aliado nombre_tecnico c.1
       (if c.2.1 ≠ [] then String.intercalate ", " c.2.1 else "Ninguno")
       (if c.2.2 ≠ [] then String.intercalate ", " c.2.2 else "Ninguno")
       ts.strftime_datetime,
     excelResult.2,
     [.complianceEval, .excelWrite excelResult.1, .sheetsAttempt sheets])

end App

namespace UniformDetector

theorem uniform_elements_nodup : uniform_elements.Nodup := by decide

theorem uniform_elements_length : uniform_elements.length = 8 := by decide

/-- The score produced by `calculate_compliance` is exactly
`(|present| / 8) * 100`. -/
theorem calculate_compliance_fst (D : List DetectedElement) :
    (calculate_compliance D).1 =
      (((calculate_compliance D).2.1.length : ℚ) / 8) * 100 := by
  simp [calculate_compliance, uniform_elements]

/-- The present list produced by `calculate_compliance` is the checklist
filtered by membership of the detected names. -/
theorem calculate_compliance_present (D : List DetectedElement) :
    (calculate_compliance D).2.1 =
      uniform_elements.filter
        (fun element => decide (element ∈ D.map (fun e => e.element))) := by
  simp [calculate_compliance]

/-- The missing list produced by `calculate_compliance` is the checklist
filtered by non-membership of the present list. -/
theorem calculate_compliance_missing (D : List DetectedElement) :
    (calculate_compliance D).2.2 =
      uniform_elements.filter
        (fun elem => decide (elem ∉ (calculate_compliance D).2.1)) := by
  simp [calculate_compliance]

theorem round1_of_eighths (n : ℕ) :
    round1 (100 * (n : ℚ) / 8) = 100 * (n : ℚ) / 8 := by
  have h : (100 * (n : ℚ) / 8) * 10 = ((125 * (n : ℤ) : ℤ) : ℚ) := by
    push_cast
    ring
  rw [round1, h, round_intCast]
  push_cast
  ring

end UniformDetector

namespace Claims

open UniformDetector App

/-- C1: for every sequence of detections `D`, `calculate_compliance D`
returns a present list and a missing list that partition the fixed
8-item checklist exactly: both lists are sublists of the checklist (so
they are in canonical checklist order and contain only checklist items),
neither contains a duplicate, and every checklist item lies in exactly
one of the two.  In particular duplicates in `D` never make an item
appear twice in the present list. -/
theorem compliance_partitions_checklist (D : List DetectedElement) :
    (calculate_compliance D).2.1.Sublist uniform_elements ∧
    (calculate_compliance D).2.2.Sublist uniform_elements ∧
    (calculate_compliance D).2.1.Nodup ∧
    (calculate_compliance D).2.2.Nodup ∧
    ∀ e ∈ uniform_elements,
      (e ∈ (calculate_compliance D).2.1 ∧ e ∉ (calculate_compliance D).2.2) ∨
      (e ∈ (calculate_compliance D).2.2 ∧ e ∉ (calculate_compliance D).2.1) := by
  rw [calculate_compliance_missing D, calculate_compliance_present D]
  refine ⟨List.filter_sublist _, List.filter_sublist _, ?_, ?_, ?_⟩
  · exact uniform_elements_nodup.filter _
  · exact uniform_elements_nodup.filter _
  · intro e he
    by_cases h : e ∈ uniform_elements.filter
        (fun element => decide (element ∈ D.map (fun x => x.element)))
    · left
      refine ⟨h, fun hc => ?_⟩
      exact absurd h (of_decide_eq_true (List.mem_filter.mp hc).2)
    · right
      exact ⟨List.mem_filter.mpr ⟨he, decide_eq_true h⟩, h⟩

/-- Witness for C1 at a concrete one-detection input: the checklist item
"casco" lands in exactly one of the two lists. -/
theorem compliance_partitions_checklist_witness :
    ("casco" ∈ (calculate_compliance
        [⟨"casco", 9/10, ⟨0, 0, 0, 0, 9/10⟩⟩]).2.1 ∧
     "casco" ∉ (calculate_compliance
        [⟨"casco", 9/10, ⟨0, 0, 0, 0, 9/10⟩⟩]).2.2) ∨
    ("casco" ∈ (calculate_compliance
        [⟨"casco", 9/10, ⟨0, 0, 0, 0, 9/10⟩⟩]).2.2 ∧
     "casco" ∉ (calculate_compliance
        [⟨"casco", 9/10, ⟨0, 0, 0, 0, 9/10⟩⟩]).2.1) :=
  (compliance_partitions_checklist
      [⟨"casco", 9/10, ⟨0, 0, 0, 0, 9/10⟩⟩]).2.2.2.2 "casco" (by decide)

/-- C3: for every sequence of detections `D`, the percentage returned by
`calculate_compliance` equals `round(100 * |present| / 8, 1)`; when
exactly two checklist items are present it equals `25.0`. -/
theorem compliance_percentage_formula (D : List DetectedElement) :
    (calculate_compliance D).1 =
      round1 (100 * ((calculate_compliance D).2.1.length : ℚ) / 8) ∧
    ((calculate_compliance D).2.1.length = 2 → (calculate_compliance D).1 = 25) := by
  constructor
  · rw [calculate_compliance_fst D, round1_of_eighths]
    ring
  · intro h
    rw [calculate_compliance_fst D, h]
    norm_num

/-- Witness for C3 at a concrete two-detection input ("botas" and
"casco" present): the percentage is 25.0. -/
theorem compliance_percentage_formula_witness :
    (calculate_compliance
      [⟨"botas", 9/10, ⟨0, 0, 0, 0, 9/10⟩⟩,
       ⟨"casco", 8/10, ⟨0, 0, 0, 0, 8/10⟩⟩]).1 = 25 :=
  (compliance_percentage_formula
      [⟨"botas", 9/10, ⟨0, 0, 0, 0, 9/10⟩⟩,
       ⟨"casco", 8/10, ⟨0, 0, 0, 0, 8/10⟩⟩]).2 (by decide)

/-- C9 counterexample: at a record with no present item the "Has" cell
of the appended row is the Spanish literal "Ninguno", not the literal
"None" the claim states. -/
theorem row_none_literal_counterexample :
    (nuevo_registro "tecnico" [] ["botas"] 0 ⟨2026, 10, 12, 8, 30, 0⟩
        "aliado")[3]? = some "Ninguno" ∧
    "Ninguno" ≠ "None" := by
  constructor
  · rfl
  · decide

/-- C9 (amended): every row appended to the tabular store has exactly
six ordered cells — date, partner, name, has, missing, percentage —
where the date cell is the timestamp rendered `YYYY-MM-DD HH:MM:SS`, the
has cell is the comma-joined present list or the literal "Ninguno"
(Spanish for "None") when no item is present, the missing cell is the
comma-joined missing list or the literal "Completo" (Spanish for
"Complete") when nothing is missing, and the percentage cell is a string
with one decimal place followed by "%"; the remote ledger append sends
the same six values in the same order, against the `A:F` range of the
configured sheet. -/
theorem row_schema_and_sink_agreement (nombre : String)
    (encontrados faltantes : List String) (p : ℚ) (ts : Timestamp)
    (aliado : String) (sheet : String) :
    sheets_values nombre encontrados faltantes p ts aliado =
      nuevo_registro nombre encontrados faltantes p ts aliado ∧
    (nuevo_registro nombre encontrados faltantes p ts aliado).length = 6 ∧
    excel_columns.length = 6 ∧
    nuevo_registro nombre encontrados faltantes p ts aliado =
      [ts.strftime_datetime, aliado, nombre,
       if encontrados ≠ [] then String.intercalate ", " encontrados
       else "Ninguno",
       if faltantes ≠ [] then String.intercalate ", " faltantes
       else "Completo",
       format_1f p ++ "%"] ∧
    sheets_append_range sheet = sheet ++ "!A:F" :=
  ⟨rfl, rfl, rfl, rfl, rfl⟩

/-- C4: the local append never lets an error escape — the outer handler
of `save_to_excel` converts every raise from the append body into a
`false` return — it reports success only when the post-write state
actually contains the target file, and the boolean it returns is exactly
whether the write succeeded, so a caught permission error on the write
yields `false`. -/
theorem excel_append_fails_closed (registro : List String) (fs : ExcelFS)
    (renameOk writeOk : Bool) (now : Timestamp) :
    (∀ e, save_to_excel_attempt registro fs renameOk writeOk now = .error e →
      save_to_excel registro fs renameOk writeOk now = (false, e)) ∧
    ((save_to_excel registro fs renameOk writeOk now).1 = true →
      (save_to_excel registro fs renameOk writeOk now).2.mainFile.isSome) ∧
    (save_to_excel registro fs renameOk writeOk now).1 = writeOk := by
  cases writeOk <;>
    simp [save_to_excel, save_to_excel_attempt]

/-- Witness for C4 at a concrete input whose write raises: the error is
caught and converted into `(false, unchanged filesystem)`. -/
theorem excel_append_fails_closed_witness :
    save_to_excel ["x"] ⟨none, none⟩ true false ⟨2026, 1, 1, 0, 0, 0⟩ =
      (false, ⟨none, none⟩) :=
  (excel_append_fails_closed ["x"] ⟨none, none⟩ true false
      ⟨2026, 1, 1, 0, 0, 0⟩).1 ⟨none, none⟩ rfl

/-- C5: appending onto an existing file whose read fails renames the old
file to a backup whose name carries a timestamp suffix when the rename
succeeds — and the append proceeds and succeeds regardless of the rename
outcome — writing a fresh file containing only the new record; appending
onto a readable existing file writes back the existing rows in their
original order followed by the new record as the last row. -/
theorem excel_append_backup_and_row_order (registro : List String)
    (fs : ExcelFS) (renameOk : Bool) (now : Timestamp) :
    (fs.mainFile = some .corrupt →
      (save_to_excel registro fs renameOk true now).2.mainFile =
        some (.table [registro]) ∧
      (save_to_excel registro fs renameOk true now).1 = true ∧
      (renameOk = true →
        (save_to_excel registro fs renameOk true now).2.backupFile =
          some (backup_filename now, .corrupt))) ∧
    (∀ rows, fs.mainFile = some (.table rows) →
      (save_to_excel registro fs renameOk true now).2.mainFile =
        some (.table (rows ++ [registro]))) ∧
    backup_filename now =
      "resultados_uniformes_backup_" ++ now.strftime_compact ++ ".xlsx" := by
  refine ⟨?_, ?_, rfl⟩
  · intro h
    cases renameOk <;>
      simp [save_to_excel, save_to_excel_attempt, h]
  · intro rows h
    simp [save_to_excel, save_to_excel_attempt, h]

/-- Witness for C5 at a concrete corrupt store: the corrupt file ends up
as the timestamped backup and the fresh file holds only the new row. -/
theorem excel_append_backup_and_row_order_witness :
    (save_to_excel ["x"] ⟨some .corrupt, none⟩ true true
        ⟨2026, 10, 12, 0, 0, 0⟩).2.mainFile = some (.table [["x"]]) ∧
    (save_to_excel ["x"] ⟨some .corrupt, none⟩ true true
        ⟨2026, 10, 12, 0, 0, 0⟩).2.backupFile =
      some (backup_filename ⟨2026, 10, 12, 0, 0, 0⟩, .corrupt) := by
  have h := (excel_append_backup_and_row_order ["x"] ⟨some .corrupt, none⟩
      true ⟨2026, 10, 12, 0, 0, 0⟩).1 rfl
  exact ⟨h.1, h.2.2 rfl⟩

/-- C2: for every request reaching the persistence stage (a nonzero
detection count), the rendered page and the final local-store state are
independent of the remote-sink behaviour — a `False` return or an
exception from `save_to_google_sheets` is swallowed at its call site —
the pipeline still renders the results page, and the event trace shows
the local append attempted before the remote one. -/
theorem remote_sink_failure_isolated (aliado nombre : String)
    (det : DetectResult) (fs : ExcelFS) (renameOk writeOk : Bool)
    (sheets : SheetsOutcome) (ts : Timestamp)
    (h : det.total_detections ≠ 0) :
    ((detect_pipeline aliado nombre det fs renameOk writeOk sheets ts).1 =
      (detect_pipeline aliado nombre det fs renameOk writeOk .ok ts).1) ∧
    ((detect_pipeline aliado nombre det fs renameOk writeOk sheets ts).2.1 =
      (detect_pipeline aliado nombre det fs renameOk writeOk .ok ts).2.1) ∧
    (detect_pipeline aliado nombre det fs renameOk writeOk
        sheets ts).1.isResultsPage = true ∧
    (detect_pipeline aliado nombre det fs renameOk writeOk sheets ts).2.2 =
      [.complianceEval,
       .excelWrite (save_to_excel (nuevo_registro nombre
          (calculate_compliance det.detected_elements).2.1
          (calculate_compliance det.detected_elements).2.2
          (calculate_compliance det.detected_elements).1 ts aliado)
          fs renameOk writeOk ts).1,
       .sheetsAttempt sheets] := by
  simp [detect_pipeline, h, PipelineResult.isResultsPage]

/-- Witness for C2 at a concrete one-detection request whose remote sink
raises: the results page is still rendered. -/
theorem remote_sink_failure_isolated_witness :
    (detect_pipeline "aliado" "tecnico"
        ⟨[⟨"casco", 1, ⟨0, 0, 0, 0, 1⟩⟩], none, 1, none⟩
        ⟨none, none⟩ true true .exn
        ⟨2026, 10, 12, 0, 0, 0⟩).1.isResultsPage = true :=
  (remote_sink_failure_isolated "aliado" "tecnico"
      ⟨[⟨"casco", 1, ⟨0, 0, 0, 0, 1⟩⟩], none, 1, none⟩
      ⟨none, none⟩ true true .exn
      ⟨2026, 10, 12, 0, 0, 0⟩ (by decide)).2.2.1

/-- C6: a detection result with zero total detections short-circuits the
route before compliance evaluation: the user receives the
nothing-detected error page, the local store is untouched, and the
event trace is empty — no compliance evaluation, no local row, no
remote attempt. -/
theorem zero_detections_short_circuit (aliado nombre : String)
    (det : DetectResult) (fs : ExcelFS) (renameOk writeOk : Bool)
    (sheets : SheetsOutcome) (ts : Timestamp)
    (h : det.total_detections = 0) :
    detect_pipeline aliado nombre det fs renameOk writeOk sheets ts =
      (.errorPage "No se detectaron elementos del uniforme.", fs, []) := by
  simp [detect_pipeline, h]

/-- Witness for C6 at a concrete empty detection result. -/
theorem zero_detections_short_circuit_witness :
    detect_pipeline "aliado" "tecnico" ⟨[], none, 0, none⟩
        ⟨none, none⟩ true true .ok ⟨2026, 10, 12, 0, 0, 0⟩ =
      (.errorPage "No se detectaron elementos del uniforme.",
       ⟨none, none⟩, []) :=
  zero_detections_short_circuit "aliado" "tecnico" ⟨[], none, 0, none⟩
    ⟨none, none⟩ true true .ok ⟨2026, 10, 12, 0, 0, 0⟩ rfl

/-- C7: the remote ledger sink fails closed — the append reports success
exactly when the client library is present, a service could be built
from some credential source, the append request did not raise, and the
response was well-formed, so missing credentials, an unreachable
service, a malformed response and remote-side errors all yield `false`
and never an exception; credential resolution prefers a non-empty
inline payload from the process environment over the configured file;
and when neither source resolves the append returns `false` without any
network contact. -/
theorem sheets_sink_fails_closed (w : SheetsWorld) (nombre : String)
    (enc fal : List String) (p : ℚ) (ts : Timestamp)
    (aliado sheet : String) :
    ((save_to_google_sheets w nombre enc fal p ts aliado sheet).1 =
      (w.google_sheets_available && (get_google_sheets_service w).1.isSome &&
       w.append_succeeds && w.response_has_updates)) ∧
    (w.google_sheets_available = true → ∀ s, w.env_credential = some s →
      s ≠ "" → w.env_cred_loads = true → w.build_succeeds = true →
      (get_google_sheets_service w).1 = some .envVar) ∧
    (w.env_credential.getD "" = "" → w.cred_file_exists = false →
      save_to_google_sheets w nombre enc fal p ts aliado sheet =
        (false, [])) := by
  refine ⟨?_, ?_, ?_⟩
  · cases hga : w.google_sheets_available with
    | false => simp [save_to_google_sheets, hga]
    | true =>
      rcases hg : get_google_sheets_service w with ⟨src, evs⟩
      cases src with
      | none => simp [save_to_google_sheets, hga, hg]
      | some c =>
        cases has : w.append_succeeds <;>
          cases hru : w.response_has_updates <;>
            simp [save_to_google_sheets, hga, hg, has, hru]
  · intro hga s henv hs hel hbs
    simp [get_google_sheets_service, hga, henv, hs, hel, hbs]
  · intro h1 h2
    cases hga : w.google_sheets_available with
    | false => simp [save_to_google_sheets, hga]
    | true =>
      have hserv : get_google_sheets_service w = (none, []) := by
        cases henv : w.env_credential with
        | none =>
          simp [get_google_sheets_service, get_service_file_branch, h2, hga,
            henv]
        | some s =>
          have hse : s = "" := by simpa [henv] using h1
          simp [get_google_sheets_service, get_service_file_branch, h2,
            henv, hse, hga]
      simp [save_to_google_sheets, hga, hserv]

/-- Witness for C7 at a concrete world with the client library present
but neither credential source resolving: the append returns `false` with
an empty network trace. -/
theorem sheets_sink_fails_closed_witness :
    save_to_google_sheets
        ⟨true, none, false, true, true, true, true, true⟩
        "tecnico" [] [] 0 ⟨2026, 10, 12, 0, 0, 0⟩ "aliado" "Registros" =
      (false, []) :=
  (sheets_sink_fails_closed
      ⟨true, none, false, true, true, true, true, true⟩
      "tecnico" [] [] 0 ⟨2026, 10, 12, 0, 0, 0⟩ "aliado" "Registros").2.2
    rfl rfl

/-- C8 counterexample: on the same allowed image, the model-unset result
and the result of a successful call that found nothing are not equal as
values — the successful call additionally carries the raw prediction
payload (`prediction_data`), which the failure path lacks. -/
theorem detect_empty_shapes_counterexample :
    detect_uniform_elements "foto.jpg" true false true (.ok []) =
      .ok ⟨[], none, 0, none⟩ ∧
    detect_uniform_elements "foto.jpg" true true true (.ok []) =
      .ok ⟨[], none, 0, some []⟩ ∧
    (DetectResult.mk [] none 0 none) ≠ ⟨[], none, 0, some []⟩ := by
  refine ⟨by rfl, by rfl, by simp⟩

/-- C8 (amended): when the model handle is unset or the detection call
raises, `detect_uniform_elements` returns the identical empty result
(`detected_elements` empty, identity box absent, `total_detections` 0,
no `prediction_data`); a successful call that found nothing agrees with
it on those three fields but additionally carries the raw prediction
payload under `prediction_data`, so the full dictionaries are not equal
as values. -/
theorem detect_failure_empty_shape (path : String) (imreadOk : Bool)
    (po : Except Unit (List RawPrediction))
    (hext : allowed_image_ext path = true) :
    detect_uniform_elements path true false imreadOk po =
      .ok ⟨[], none, 0, none⟩ ∧
    detect_uniform_elements path true true true (.error ()) =
      .ok ⟨[], none, 0, none⟩ ∧
    ∀ r, detect_uniform_elements path true true true (.ok []) = .ok r →
      r.detected_elements = [] ∧ r.carnet_box = none ∧
      r.total_detections = 0 ∧ r.prediction_data = some [] := by
  refine ⟨?_, ?_, ?_⟩
  · simp [detect_uniform_elements, hext]
  · simp [detect_uniform_elements, hext]
  · intro r h
    simp only [detect_uniform_elements, hext, Bool.not_true, Bool.false_eq_true,
      if_false, if_true, List.map_nil, List.find?_nil, Option.map_none,
      List.length_nil, Except.ok.injEq] at h
    subst h
    simp

/-- Witness for C8 at the concrete allowed path "foto.jpg": the
model-unset call yields the bare empty result. -/
theorem detect_failure_empty_shape_witness :
    detect_uniform_elements "foto.jpg" true false true (.ok [])
      = .ok ⟨[], none, 0, none⟩ :=
  (detect_failure_empty_shape "foto.jpg" true (.ok []) (by decide)).1

/-- C10 counterexample: for an existing, allowed-extension path whose
image cannot be decoded, with the detection model unavailable,
`detect_uniform_elements` does not raise `ValueError` — it returns the
empty result before ever attempting the decode. -/
theorem detect_undecodable_counterexample :
    detect_uniform_elements "foto.jpg" true false false (.ok []) =
      .ok ⟨[], none, 0, none⟩ ∧
    ∀ e, detect_uniform_elements "foto.jpg" true false false (.ok []) ≠
      .error e := by
  refine ⟨by rfl, fun e h => ?_⟩
  rw [show detect_uniform_elements "foto.jpg" true false false (.ok []) =
      .ok ⟨[], none, 0, none⟩ by rfl] at h
  exact Except.noConfusion h

/-- C10 (amended): `detect_uniform_elements` validates its input before
consulting the model — a missing path raises `FileNotFoundError` and a
disallowed extension raises `ValueError`, in both cases whatever the
state of the model — but the undecodable-image `ValueError` is only
raised when the model handle is set: with the model unset the function
returns the empty result before attempting the decode. -/
theorem detect_input_validation (path : String)
    (modelLoaded imreadOk : Bool) (po : Except Unit (List RawPrediction)) :
    (detect_uniform_elements path false modelLoaded imreadOk po =
      .error (.fileNotFound ("Imagen no encontrada: " ++ path))) ∧
    (allowed_image_ext path = false →
      detect_uniform_elements path true modelLoaded imreadOk po =
        .error (.valueError "Formato no válido. Use JPG, JPEG, PNG o BMP.")) ∧
    (allowed_image_ext path = true →
      detect_uniform_elements path true true false po =
        .error (.valueError "No se pudo leer la imagen.")) ∧
    (allowed_image_ext path = true →
      detect_uniform_elements path true false imreadOk po =
        .ok ⟨[], none, 0, none⟩) := by
  refine ⟨?_, ?_, ?_, ?_⟩
  · simp [detect_uniform_elements]
  · intro h
    simp [detect_uniform_elements, h]
  · intro h
    simp [detect_uniform_elements, h]
  · intro h
    simp [detect_uniform_elements, h]

/-- Witness for C10 at concrete paths: a missing file raises
`FileNotFoundError` and a disallowed extension raises `ValueError`, both
with the model unset. -/
theorem detect_input_validation_witness :
    detect_uniform_elements "ausente.jpg" false false true (.ok []) =
      .error (.fileNotFound "Imagen no encontrada: ausente.jpg") ∧
    detect_uniform_elements "foto.txt" true false true (.ok []) =
      .error (.valueError "Formato no válido. Use JPG, JPEG, PNG o BMP.") :=
  ⟨(detect_input_validation "ausente.jpg" false true (.ok [])).1,
   (detect_input_validation "foto.txt" false true (.ok [])).2.1 (by decide)⟩

end Claims
